import Mathlib

/-!
Verification of the LanceDB C boundary layer (`go/c/lancedb.h`).

The repository source under scrutiny is the hand-written C header that fixes
the boundary catalog: every entry point's name, parameter types and return
type.  We embed that catalog as data (`lancedbHeader`) transcribed
declaration-by-declaration from the header, together with small behavioural
models of the result-encoding conventions the header documents, and prove the
spec's claims about the catalog over this embedding.
-/

namespace LanceDB

/-- C types appearing in the boundary header: primitives, opaque struct types
referenced by name, and pointers carrying a pointee-const qualifier. -/
inductive CType where
  | void
  | charTy
  | uint8
  | uint32
  | int64
  | floatTy
  | doubleTy
  | sizeTy
  | structTy (s : String)
  | ptr (pointee : CType) (constPointee : Bool)
deriving DecidableEq

/-- One formal parameter of a C declaration: its name and type. -/
structure CParam where
  pname : String
  ptype : CType
deriving DecidableEq

/-- One C function declaration: name, return type, parameter list. -/
structure CDecl where
  dname : String
  ret : CType
  params : List CParam
deriving DecidableEq

/-- One field of a C struct definition. -/
structure CField where
  fname : String
  ftype : CType
deriving DecidableEq

def constCharPtr : CType := .ptr .charTy true

def charPtr : CType := .ptr .charTy false

def constU8Ptr : CType := .ptr .uint8 true

def constFloatPtr : CType := .ptr .floatTy true

def constPtrTo (s : String) : CType := .ptr (.structTy s) true

def mutPtrTo (s : String) : CType := .ptr (.structTy s) false

/-- The `ConnectionOptions` struct of the header, field for field. -/
def ConnectionOptionsFields : List CField :=
  [⟨"read_consistency_interval", .doubleTy⟩,
   ⟨"api_key", constCharPtr⟩,
   ⟨"region", constCharPtr⟩,
   ⟨"host_override", constCharPtr⟩]

/-- `Connection* create_connection(const char* uri);` -/
def create_connection_decl : CDecl :=
  ⟨"create_connection", mutPtrTo "Connection", [⟨"uri", constCharPtr⟩]⟩

/-- `void free_connection(Connection* conn);` -/
def free_connection_decl : CDecl :=
  ⟨"free_connection", .void, [⟨"conn", mutPtrTo "Connection"⟩]⟩

/-- `Table* create_table_c(const Connection* conn, const char* name, const uint8_t* buf, size_t buf_len, const char* mode);` -/
def create_table_c_decl : CDecl :=
  ⟨"create_table_c", mutPtrTo "Table",
   [⟨"conn", constPtrTo "Connection"⟩, ⟨"name", constCharPtr⟩,
    ⟨"buf", constU8Ptr⟩, ⟨"buf_len", .sizeTy⟩, ⟨"mode", constCharPtr⟩]⟩

/-- `Table* open_table_c(const Connection* conn, const char* name);` -/
def open_table_c_decl : CDecl :=
  ⟨"open_table_c", mutPtrTo "Table",
   [⟨"conn", constPtrTo "Connection"⟩, ⟨"name", constCharPtr⟩]⟩

/-- `void free_table(Table* table);` -/
def free_table_decl : CDecl :=
  ⟨"free_table", .void, [⟨"table", mutPtrTo "Table"⟩]⟩

/-- `char* table_add(const Table* table, const uint8_t* buf, size_t buf_len, const char* mode);` -/
def table_add_decl : CDecl :=
  ⟨"table_add", charPtr,
   [⟨"table", constPtrTo "Table"⟩, ⟨"buf", constU8Ptr⟩,
    ⟨"buf_len", .sizeTy⟩, ⟨"mode", constCharPtr⟩]⟩

/-- `char* table_schema(const Table* table);` -/
def table_schema_decl : CDecl :=
  ⟨"table_schema", charPtr, [⟨"table", constPtrTo "Table"⟩]⟩

/-- `char* table_display(const Table* table);` -/
def table_display_decl : CDecl :=
  ⟨"table_display", charPtr, [⟨"table", constPtrTo "Table"⟩]⟩

/-- `Query* table_query(const Table* table);` -/
def table_query_decl : CDecl :=
  ⟨"table_query", mutPtrTo "Query", [⟨"table", constPtrTo "Table"⟩]⟩

/-- `int64_t table_count_rows(const Table* table_ptr, const char* filter);` -/
def table_count_rows_decl : CDecl :=
  ⟨"table_count_rows", .int64,
   [⟨"table_ptr", constPtrTo "Table"⟩, ⟨"filter", constCharPtr⟩]⟩

/-- `VectorQuery* table_vector_search(Table* table_ptr, const float* vector_ptr, size_t vector_len);` -/
def table_vector_search_decl : CDecl :=
  ⟨"table_vector_search", mutPtrTo "VectorQuery",
   [⟨"table_ptr", mutPtrTo "Table"⟩, ⟨"vector_ptr", constFloatPtr⟩,
    ⟨"vector_len", .sizeTy⟩]⟩

/-- `void set_limit(VectorQuery* query, uint32_t limit);` -/
def set_limit_decl : CDecl :=
  ⟨"set_limit", .void,
   [⟨"query", mutPtrTo "VectorQuery"⟩, ⟨"limit", .uint32⟩]⟩

/-- `RecordBatchIterator* execute_query(VectorQuery* query, uint32_t max_batch_length);` -/
def execute_query_decl : CDecl :=
  ⟨"execute_query", mutPtrTo "RecordBatchIterator",
   [⟨"query", mutPtrTo "VectorQuery"⟩, ⟨"max_batch_length", .uint32⟩]⟩

/-- The complete catalog of entry points declared in `lancedb.h`, in header
order.  These thirteen declarations are all the functions the header
declares. -/
def lancedbHeader : List CDecl :=
  [create_connection_decl, free_connection_decl, create_table_c_decl,
   open_table_c_decl, free_table_decl, table_add_decl, table_schema_decl,
   table_display_decl, table_query_decl, table_count_rows_decl,
   table_vector_search_decl, set_limit_decl, execute_query_decl]

/-- Whether a C type references the opaque struct named `s`, directly or
through any chain of pointers. -/
def CType.mentions : CType → String → Bool
  | .structTy s2, s => s = s2
  | .ptr p _, s => p.mentions s
  | _, _ => false

/-- Whether a C type is `size_t`, directly or through pointers. -/
def CType.mentionsSizeT : CType → Bool
  | .sizeTy => true
  | .ptr p _ => p.mentionsSizeT
  | _ => false

/-- Whether a declaration references the opaque struct named `s` anywhere in
its signature. -/
def CDecl.usesStruct (d : CDecl) (s : String) : Bool :=
  d.ret.mentions s || d.params.any (fun p => p.ptype.mentions s)

/-- Whether any explicit length (`size_t`) appears anywhere in a
declaration's signature. -/
def CDecl.mentionsSizeT (d : CDecl) : Bool :=
  d.ret.mentionsSizeT || d.params.any (fun p => p.ptype.mentionsSizeT)

/-- The type of a declaration's first parameter, when it has one. -/
def CDecl.firstParamType (d : CDecl) : Option CType :=
  d.params.head?.map (fun p => p.ptype)

/-- The address value the C `NULL` pointer carries at the boundary. -/
def NULLPTR : Nat := 0

/-- Modelled from the spec: the boundary encoding of a handle-returning call
(the implementation behind the header is absent from the sources; only the
declarations are).  A successful acquisition yields a non-null address, a
failure yields the null pointer and nothing else. -/
def encode_handle_result : Option Nat → Nat
  | some h => h + 1
  | none => NULLPTR

/-- Modelled from the spec: the result encoding of `table_count_rows` (the
implementation is absent from the sources).  The header contract is a signed
64-bit return carrying the non-negative row count on success and the reserved
sentinel `-1` on error. -/
def encode_count_result : Option Nat → Int
  | some n => (n : Int)
  | none => -1

/-- Modelled from the spec: the result encoding of `table_add` (the
implementation is absent from the sources).  One caller-owned string channel
carries both outcomes: exactly `"Success"` on success, and the descriptive
error message itself on failure. -/
def encode_add_result : Except String Unit → String
  | .ok _ => "Success"
  | .error m => m

/-- A table schema, abstractly: the structural description embedded in the
interchange payload. -/
structure Schema where
  fields : List String
deriving DecidableEq

/-- One self-describing interchange-format payload: a schema plus zero or
more rows. -/
structure IpcPayload where
  schema : Schema
  rows : List (List Int)
deriving DecidableEq

/-- The engine-side state a `Table` handle stands for: its name, schema,
rows, and the configured vector column dimensionality. -/
structure TableState where
  tname : String
  schema : Schema
  rows : List (List Int)
  vectorDim : Nat
deriving DecidableEq

/-- Modelled from the spec: the behaviour of `table_schema` (the
implementation is absent from the sources).  Given a valid table it produces
an interchange payload holding the table's schema and zero rows; given an
invalid table (the error case) it produces the null sentinel, modelled as
`none`. -/
def table_schema_model : Option TableState → Option IpcPayload
  | some t => some ⟨t.schema, []⟩
  | none => none

/-- The builder state a `VectorQuery` handle stands for: the probe vector and
the configured result-count limit (unset until `set_limit`). -/
structure VectorQueryState where
  probe : List Float
  limit : Option Nat

/-- Modelled from the spec: the behaviour of `table_vector_search` (the
implementation is absent from the sources).  A probe vector whose length
disagrees with the table's configured vector column dimensionality fails with
a dimension mismatch and yields the null sentinel; a matching vector yields a
fresh builder carrying the probe. -/
def table_vector_search_model (t : TableState) (v : List Float) :
    Option VectorQueryState :=
  if v.length = t.vectorDim then some ⟨v, none⟩ else none

/-- Modelled from the spec: the behaviour of `set_limit` (the implementation
is absent from the sources).  A pure configuration mutation: it records the
limit in the builder and touches nothing else; it is total and has no failure
channel. -/
def set_limit_model (q : VectorQueryState) (l : Nat) : VectorQueryState :=
  ⟨q.probe, some l⟩

/-- The names of the handle-returning entry points that the spec lists as
fallible (null on failure): open connection, create table, open table, build
vector query, execute query. -/
def handleFallibleNames : List String :=
  ["create_connection", "create_table_c", "open_table_c",
   "table_vector_search", "execute_query"]

/-- Whether a C type is a (non-const) pointer to an opaque struct, the shape
of every handle returned across the boundary. -/
def CType.isHandlePtr : CType → Bool
  | .ptr (.structTy _) false => true
  | _ => false

/-- A concrete table used to instantiate theorems: vector column of width
two, no rows yet. -/
def tEx : TableState := ⟨"vectors", ⟨["id", "vec"]⟩, [], 2⟩

/-- Claim C1, code evaluation: the header's open-connection entry point
`create_connection` takes exactly one parameter, the uri string, and its
signature references the `ConnectionOptions` struct nowhere — so no options
value can be passed, although the header's own doc comment documents an
`options` parameter and the struct is defined just above it. -/
theorem c1_create_connection_has_no_options_param :
    create_connection_decl.params = [⟨"uri", constCharPtr⟩] ∧
    create_connection_decl.usesStruct "ConnectionOptions" = false ∧
    lancedbHeader.all (fun d => !(d.usesStruct "ConnectionOptions")) = true := by
  refine ⟨rfl, rfl, ?_⟩
  decide

/-- Claim C2, code evaluation: no declaration in the header takes a
`RecordBatchIterator` parameter, so the catalog provides no iterator-next
(nor any iterator-consuming) entry point — even though `execute_query` does
return a `RecordBatchIterator` handle. -/
theorem c2_no_iterator_next_entry_point :
    lancedbHeader.all
      (fun d => !(d.params.any (fun p => p.ptype.mentions "RecordBatchIterator")))
      = true ∧
    lancedbHeader.any (fun d => d.ret.mentions "RecordBatchIterator") = true := by
  refine ⟨?_, ?_⟩ <;> decide

/-- Claim C3, code evaluation: the full list of entry points the header
declares; the only release-shaped entry points (void return, single pointer
argument) are `free_connection` and `free_table`; and the `free_cstring`
function that the header's doc comments direct the caller to use is not
declared, so Query, VectorQuery, RecordBatchIterator handles and the
caller-owned strings have no release entry point at all. -/
theorem c3_release_entry_points_incomplete :
    lancedbHeader.map CDecl.dname =
      ["create_connection", "free_connection", "create_table_c",
       "open_table_c", "free_table", "table_add", "table_schema",
       "table_display", "table_query", "table_count_rows",
       "table_vector_search", "set_limit", "execute_query"] ∧
    (lancedbHeader.filter
        (fun d => d.ret = CType.void && d.params.length = 1)).map CDecl.dname =
      ["free_connection", "free_table"] ∧
    lancedbHeader.all (fun d => !(d.dname = "free_cstring")) = true := by
  refine ⟨?_, ?_, ?_⟩ <;> decide

/-- Claim C4: `table_count_rows` returns a signed 64-bit integer; the
modelled result encoding sends every successful count, zero included, to a
non-negative value and failure to the reserved negative sentinel `-1`, which
is distinct from every valid count. -/
theorem c4_count_rows_signed_sentinel :
    table_count_rows_decl.ret = CType.int64 ∧
    (∀ n : Nat, 0 ≤ encode_count_result (some n)) ∧
    encode_count_result none = -1 ∧
    encode_count_result none < 0 ∧
    (∀ n : Nat, encode_count_result (some n) ≠ encode_count_result none) := by
  refine ⟨rfl, fun n => Int.ofNat_nonneg n, rfl, by decide, fun n => ?_⟩
  simp only [encode_count_result]
  omega

/-- Claim C5, counterexample: the `table_schema` declaration returns a bare
`char*` with a single `const Table*` parameter; no explicit length (`size_t`)
appears anywhere in its signature, so the schema result is not "a contiguous
byte region together with an explicit length" as the claim states — its
length is implied only by the null terminator. -/
theorem c5_schema_result_has_no_explicit_length :
    table_schema_decl =
      ⟨"table_schema", charPtr, [⟨"table", constPtrTo "Table"⟩]⟩ ∧
    table_schema_decl.mentionsSizeT = false := by
  exact ⟨rfl, rfl⟩

/-- Claim C5, amended: the schema operation returns a caller-owned
null-terminated string channel (a `char*`, with no explicit length) whose
interchange payload holds exactly the table's schema and zero rows for every
valid table, and the null sentinel on error. -/
theorem c5_schema_string_with_zero_rows :
    table_schema_decl.ret = charPtr ∧
    (∀ t : TableState, table_schema_model (some t) = some ⟨t.schema, []⟩) ∧
    table_schema_model none = none := by
  exact ⟨rfl, fun t => rfl, rfl⟩

/-- Claim C6: `table_add` returns a caller-owned string; the modelled
encoding sends success to exactly `"Success"` and a failure with message `m`
(never itself `"Success"`) to `m`, so one channel carries both outcomes. -/
theorem c6_add_status_string :
    table_add_decl.ret = charPtr ∧
    encode_add_result (Except.ok ()) = "Success" ∧
    (∀ m : String, m ≠ "Success" →
      encode_add_result (Except.error m) = m ∧
      encode_add_result (Except.error m) ≠ "Success") := by
  exact ⟨rfl, rfl, fun m hm => ⟨rfl, hm⟩⟩

/-- Witness for C6 at a concrete error message. -/
theorem c6_add_status_string_witness :
    encode_add_result (Except.error "SchemaMismatch") = "SchemaMismatch" ∧
    encode_add_result (Except.error "SchemaMismatch") ≠ "Success" :=
  c6_add_status_string.2.2 "SchemaMismatch" (by decide)

/-- Claim C7: every entry point the claim lists (open connection, create
table, open table, build vector query, execute query) returns a handle
pointer, and the modelled boundary encoding signals failure by the null
pointer and nothing else: the result is null exactly when acquisition
failed, and every successfully returned handle is non-null, so a failed call
leaves no handle reachable. -/
theorem c7_handle_failure_is_null :
    (handleFallibleNames.all (fun n =>
        (lancedbHeader.filter (fun d => d.dname = n)).all
          (fun d => d.ret.isHandlePtr)
        && decide ((lancedbHeader.filter (fun d => d.dname = n)).length = 1))
      = true) ∧
    (∀ r : Option Nat, encode_handle_result r = NULLPTR ↔ r = none) ∧
    (∀ h : Nat, encode_handle_result (some h) ≠ NULLPTR) := by
  refine ⟨by decide, fun r => ?_, fun h => ?_⟩
  · cases r with
    | none => simp [encode_handle_result]
    | some h => simp [encode_handle_result, NULLPTR]
  · simp [encode_handle_result, NULLPTR]

/-- Claim C8: for every table and probe vector, a length disagreeing with
the table's configured vector column dimensionality makes the modelled
vector search return the null sentinel (no VectorQuery handle), and a
matching length yields a VectorQuery builder carrying the probe. -/
theorem c8_vector_search_dimension_check :
    ∀ (t : TableState) (v : List Float),
      (v.length ≠ t.vectorDim → table_vector_search_model t v = none) ∧
      (v.length = t.vectorDim →
        ∃ q, table_vector_search_model t v = some q ∧ q.probe = v) := by
  intro t v
  constructor
  · intro hne
    simp [table_vector_search_model, hne]
  · intro heq
    exact ⟨⟨v, none⟩, by simp [table_vector_search_model, heq], rfl⟩

/-- Witness for C8 on the concrete table `tEx` (dimensionality two): a
length-one probe is rejected, a length-two probe yields a builder. -/
theorem c8_vector_search_dimension_check_witness :
    table_vector_search_model tEx [(1.0 : Float)] = none ∧
    ∃ q, table_vector_search_model tEx [(1.0 : Float), 2.0] = some q ∧
      q.probe = [(1.0 : Float), 2.0] :=
  ⟨(c8_vector_search_dimension_check tEx [(1.0 : Float)]).1 (by decide),
   (c8_vector_search_dimension_check tEx [(1.0 : Float), 2.0]).2 (by decide)⟩

/-- Claim C9: `set_limit` returns void, and for every builder and every
limit in the unsigned 32-bit range, zero included, the modelled mutation is
total (no failure channel), records exactly the requested limit in the
builder, and leaves the probe vector untouched. -/
theorem c9_set_limit_pure_mutation :
    set_limit_decl.ret = CType.void ∧
    (∀ (q : VectorQueryState) (l : Nat), l < 2 ^ 32 →
      (set_limit_model q l).limit = some l ∧
      (set_limit_model q l).probe = q.probe) := by
  exact ⟨rfl, fun q l _ => ⟨rfl, rfl⟩⟩

/-- Witness for C9 at the degenerate limit zero on an empty builder. -/
theorem c9_set_limit_pure_mutation_witness :
    (0 : Nat) < 2 ^ 32 ∧
    (set_limit_model ⟨[], none⟩ 0).limit = some 0 ∧
    (set_limit_model ⟨[], none⟩ 0).probe = [] :=
  ⟨by norm_num, c9_set_limit_pure_mutation.2 ⟨[], none⟩ 0 (by norm_num)⟩

/-- Claim C10: `table_add`, `table_schema`, `table_display`, `table_query`
and `table_count_rows` each receive the Table handle as a pointer to const,
while `table_vector_search` receives it as a mutable pointer. -/
theorem c10_table_handle_constness :
    table_add_decl.firstParamType = some (constPtrTo "Table") ∧
    table_schema_decl.firstParamType = some (constPtrTo "Table") ∧
    table_display_decl.firstParamType = some (constPtrTo "Table") ∧
    table_query_decl.firstParamType = some (constPtrTo "Table") ∧
    table_count_rows_decl.firstParamType = some (constPtrTo "Table") ∧
    table_vector_search_decl.firstParamType = some (mutPtrTo "Table") := by
  refine ⟨rfl, rfl, rfl, rfl, rfl, rfl⟩

end LanceDB
